import Mathlib

/-!
Shallow embedding of the Remainders temporal-grid layout and composition
engine (the year-view wallpaper generator) and proofs about it.

The calendar arithmetic models ECMAScript `Date` semantics on the proleptic
Gregorian calendar: an instant is a civil date plus a millisecond offset
within the day, and `getTime` converts it to milliseconds since the epoch
1970-01-01.  Time zones collapse to UTC (the engine runs with the
environment time zone, and the `lib/calcs` functions ignore their timezone
argument entirely).  JavaScript floating-point arithmetic on coordinates is
modelled by exact rational arithmetic.
-/

/-- Leap-year predicate used throughout the source:
`(y % 4 === 0 && y % 100 !== 0) || y % 400 === 0`. -/
def isLeapYear (y : Int) : Bool :=
  (y % 4 == 0 && y % 100 != 0) || y % 400 == 0

/-- Days elapsed in year `y` before the first of month `m` (1-based). -/
def daysBeforeMonth (y m : Int) : Int :=
  let L : Int := if isLeapYear y then 1 else 0
  if m = 1 then 0 else if m = 2 then 31 else if m = 3 then 59 + L
  else if m = 4 then 90 + L else if m = 5 then 120 + L else if m = 6 then 151 + L
  else if m = 7 then 181 + L else if m = 8 then 212 + L else if m = 9 then 243 + L
  else if m = 10 then 273 + L else if m = 11 then 304 + L else if m = 12 then 334 + L
  else 0

/-- Number of Gregorian leap years strictly before year `y` (counted from
year 1; only differences of this function are ever used). -/
def leapYearsBefore (y : Int) : Int := (y - 1) / 4 - (y - 1) / 100 + (y - 1) / 400

/-- Day number (days since 1970-01-01) of January 1 of year `y`; this is
ECMAScript `DayFromYear`. -/
def daysToYearStart (y : Int) : Int :=
  365 * (y - 1970) + (leapYearsBefore y - leapYearsBefore 1970)

/-- Day number (days since 1970-01-01) of the civil date `y-m-d`
(month 1-based). -/
def daysFromCivil (y m d : Int) : Int :=
  daysToYearStart y + daysBeforeMonth y m + (d - 1)

/-- A JavaScript `Date` instant, represented by its civil calendar fields
(month 1-based) plus the millisecond offset within the day. `getFullYear`
is field access, `getTime` is `JSDate.getTime` below. -/
structure JSDate where
  year : Int
  month : Int
  day : Int
  ms : Int
deriving DecidableEq

/-- Milliseconds since the epoch of a `JSDate` (ECMAScript `getTime`). -/
def JSDate.getTime (dt : JSDate) : Int :=
  daysFromCivil dt.year dt.month dt.day * 86400000 + dt.ms

/-- ECMAScript `getDay`: day of the week of the civil date `y-m-d`,
`0 = Sunday` (1970-01-01 was a Thursday, hence the `+ 4`). -/
def getDayOfWeek (y m d : Int) : Int := (daysFromCivil y m d + 4) % 7

/-- Floor of the exact rational quotient `a / b`, as JavaScript
`Math.floor(a / b)` computes on the engine's date differences. -/
def jsFloorDiv (a : Int) (b : Nat) : Int := ⌊(a : ℚ) / (b : ℚ)⌋

/-- JavaScript `Math.round`: floor of `q + 1/2` (rounds half-up). -/
def jsRound (q : ℚ) : Int := ⌊q + 1 / 2⌋

/-!
The `lib/calcs` temporal calculator.  Every one of these functions reads
`new Date()` in the source (they take no date parameter; the enhanced view
even passes a timezone argument that the functions silently drop).  The
hidden system-clock read is made explicit here as the `today` argument.
-/

/-- Source `getCurrentDayOfYear`: day of the year of `today`, 1-indexed, via
`Math.floor((today - startOfYear) / 86400000) + 1` where `startOfYear` is
local midnight of January 1 of `today.getFullYear()`. -/
def getCurrentDayOfYear (today : JSDate) : Int :=
  let startOfYear : Int := daysFromCivil today.year 1 1 * 86400000
  jsFloorDiv (today.getTime - startOfYear) 86400000 + 1

/-- Source `getTotalDaysInCurrentYear`: 366 for leap years of the clock
date, else 365. -/
def getTotalDaysInCurrentYear (today : JSDate) : Int :=
  if isLeapYear today.year then 366 else 365

/-- Source `calculateDaysLeftInYear`: total days of the clock year minus the
current day of the year. -/
def calculateDaysLeftInYear (today : JSDate) : Int :=
  let totalDaysInYear : Int := if isLeapYear today.year then 366 else 365
  totalDaysInYear - getCurrentDayOfYear today

/-- Source `calculateWeeksLived`: `Math.floor(((today - birth) in ms /
86400000) / 7)`.  Note: no clamping of negative values. -/
def calculateWeeksLived (birth today : JSDate) : Int :=
  ⌊(((today.getTime - birth.getTime : Int) : ℚ) / 86400000) / 7⌋

/-!
Cell states and the two year-view grids.  The cell colorer is the pure
comparison of a cell's (1-based) day number with `currentDayOfYear`.
-/

/-- Semantic state of a drawn grid cell (the three colors `past`,
`current`, `future` of the palette). -/
inductive CellState
  | past
  | current
  | future
deriving DecidableEq

/-- Coloring comparison used by both year-view layouts:
`day < c` gives past, `day = c` gives current, otherwise future. -/
def dayState (day c : Int) : CellState :=
  if day < c then .past else if day = c then .current else .future

/-- A dot of the days layout: its 1-based day number, grid row and column,
and color state. -/
structure DayDot where
  day : Int
  row : Nat
  col : Nat
  state : CellState
deriving DecidableEq

/-- Days layout of the year view (`yearViewLayout = days`): one dot per day
`1..totalDays`, placed at `cellIndex = day - 1 + startDayOffset` in a
14-column grid, colored by comparison with `currentDayOfYear = c`. -/
def daysDots (totalDays startDayOffset : Nat) (c : Int) : List DayDot :=
  (List.range totalDays).map (fun idx =>
    let cellIndex := idx + startDayOffset
    { day := (idx : Int) + 1, row := cellIndex / 14, col := cellIndex % 14,
      state := dayState ((idx : Int) + 1) c })

/-- Row count of the days layout: `Math.ceil(totalCells / 14)` with
`totalCells = startDayOffset + totalDays`. -/
def rowsCount (totalDays startDayOffset : Nat) : Nat :=
  (startDayOffset + totalDays + 13) / 14

/-- A dot of the months layout: month index (0-based), slot index inside the
month's 7x6 block, the `globalDayCounter` value it was colored with, and its
color state. -/
structure YearDot where
  month : Nat
  slot : Nat
  global : Int
  state : CellState
deriving DecidableEq

/-- Inner loop of the months layout over the 42 slots of one month block
(slot list `l`, running `globalDayCounter` value `k`): a slot holds a day
cell iff `0 < dayNum ≤ daysInMonth` with `dayNum = slot - startDay + 1`;
only day cells push a dot, colored with the incremented counter. -/
def monthSlots (startDay dim : Nat) (c : Int) (m : Nat) :
    List Nat → Int → List YearDot × Int
  | [], k => ([], k)
  | i :: rest, k =>
    let dayNum : Int := (i : Int) - startDay + 1
    if 0 < dayNum ∧ dayNum ≤ (dim : Int) then
      let res := monthSlots startDay dim c m rest (k + 1)
      (⟨m, i, k + 1, dayState (k + 1) c⟩ :: res.1, res.2)
    else
      monthSlots startDay dim c m rest k

/-- One month block of the months layout: the 42-slot loop of the source. -/
def monthDots (startDay dim : Nat) (c : Int) (m : Nat) (k : Int) :
    List YearDot × Int :=
  monthSlots startDay dim c m (List.range 42) k

/-- Source helper `getDaysInMonth(year, monthIndex)` =
`new Date(year, monthIndex + 1, 0).getDate()` (month index 0-based). -/
def getDaysInMonth (y : Int) : Nat → Nat
  | 0 => 31
  | 1 => if isLeapYear y then 29 else 28
  | 2 => 31
  | 3 => 30
  | 4 => 31
  | 5 => 30
  | 6 => 31
  | 7 => 31
  | 8 => 30
  | 9 => 31
  | 10 => 30
  | 11 => 31
  | _ => 0

/-- Source helper `getFirstDayOfMonth`: weekday of the first of the month
(0 = Sunday), shifted when Monday-first is requested. -/
def getFirstDayOfMonth (isMondayFirst : Bool) (y : Int) (monthIndex : Nat) : Nat :=
  let d := (getDayOfWeek y ((monthIndex : Int) + 1) 1).toNat
  if isMondayFirst then (if d = 0 then 6 else d - 1) else d

/-- Outer loop of the months layout: month blocks in order, threading the
`globalDayCounter` value between blocks. -/
def monthsAux (y : Int) (mf : Bool) (c : Int) : List Nat → Int → List YearDot
  | [], _ => []
  | mi :: rest, k =>
    let res := monthDots (getFirstDayOfMonth mf y mi) (getDaysInMonth y mi) c mi k
    res.1 ++ monthsAux y mf c rest res.2

/-- The twelve month indices of the `MONTHS.map` iteration. -/
def monthIndices : List Nat := [0, 1, 2, 3, 4, 5, 6, 7, 8, 9, 10, 11]

/-- All day dots of the months layout of the year view, in source order,
with `globalDayCounter` starting at 0. -/
def monthsDots (y : Int) (mf : Bool) (c : Int) : List YearDot :=
  monthsAux y mf c monthIndices 0

/-- Total days of the year `y` as a `Nat` (the `totalDays` count used for
the grids). -/
def totalDaysNat (y : Int) : Nat := if isLeapYear y then 366 else 365

/-- Total day count of a list of month blocks. -/
def monthsDim (y : Int) (l : List Nat) : Nat := (l.map (getDaysInMonth y)).sum

/-- Property asserted by claim C1, for year `y`, Monday-first flag `mf`,
days-layout start offset `offset`, and current day of year `c`: in the days
layout and in the months layout alike, exactly one cell is `current`, namely
the one whose 1-based day number equals `c`; cells with smaller day numbers
are `past` and cells with larger day numbers are `future`; the months-layout
day numbers (`globalDayCounter` values) enumerate `1..totalDays` in order. -/
def C1Prop (y : Int) (mf : Bool) (offset : Nat) (c : Int) : Prop :=
  ((daysDots (totalDaysNat y) offset c).countP
      (fun d => decide (d.state = CellState.current)) = 1) ∧
  (∀ d ∈ daysDots (totalDaysNat y) offset c,
    (d.state = CellState.past ↔ d.day < c) ∧ (d.state = CellState.current ↔ d.day = c) ∧
    (d.state = CellState.future ↔ c < d.day)) ∧
  ((monthsDots y mf c).map (fun d => d.global) =
    (List.range (totalDaysNat y)).map (fun (t : Nat) => (t : Int) + 1)) ∧
  ((monthsDots y mf c).countP (fun d => decide (d.state = CellState.current)) = 1) ∧
  (∀ d ∈ monthsDots y mf c,
    (d.state = CellState.past ↔ d.global < c) ∧ (d.state = CellState.current ↔ d.global = c) ∧
    (d.state = CellState.future ↔ c < d.global))

/-- Stats footer text of the year view: the `"{daysLeft}d left"` span, the
separator dot, and the `"{Math.round(currentDayOfYear / totalDays * 100)}%"`
span, concatenated. -/
def statsLine (daysLeft currentDayOfYear totalDays : Int) : String :=
  toString daysLeft ++ "d left · " ++
    toString (jsRound (((currentDayOfYear : Int) : ℚ) / ((totalDays : Int) : ℚ) * 100)) ++ "%"

/-!
Scene primitives and the overlay layers (user text elements, plugin
elements).  Styling-only fields of the source records (font family, color,
alignment transform, maxWidth) are omitted from the embedding: they deform a
primitive but never decide whether it exists, which is what the claims are
about.
-/

/-- The empty string (named, for use as an `Option.getD` default). -/
def emptyStr : String := ""

/-- A renderable primitive of the composed scene: a grid dot (position,
size, color state), the stats footer, a percentage-anchored user text, or a
pixel-anchored plugin text. -/
inductive Prim
  | dot (x y size : ℚ) (state : CellState)
  | stats (content : String) (y : ℚ)
  | text (content : String) (xPercent yPercent : ℚ)
  | ptext (content : String) (x y : ℚ)
deriving DecidableEq

/-- A user-authored text element (content is `Option` so that a JavaScript
`null`/`undefined` content is representable). -/
structure TextElement where
  id : String
  content : Option String
  x : ℚ
  y : ℚ
  fontSize : ℚ
  visible : Bool
deriving DecidableEq

/-- Source rendering of one user text element:
`if (!element.visible || element.content == null) return null`, otherwise a
primitive holding `String(element.content).trim()` at the percentage
position.  Note that an empty string is NOT null and is not skipped. -/
def textRender (e : TextElement) : Option Prim :=
  if e.visible = false ∨ e.content = none then none
  else some (.text ((e.content.getD emptyStr).trim) e.x e.y)

/-- The user-text overlay layer: `textElements.map(...)` keeping only the
rendered elements. -/
def textPrims (elements : List TextElement) : List Prim :=
  elements.filterMap textRender

/-- The four element types of the `PluginRenderElement` schema. -/
inductive PluginElemType
  | text
  | rect
  | circle
  | line
deriving DecidableEq

/-- A plugin-authored element (fields relevant to composition). -/
structure PluginRenderElement where
  type : PluginElemType
  content : Option String
  x : ℚ
  y : ℚ
deriving DecidableEq

/-- Source rendering of one plugin element: only
`element.type === 'text' && element.content != null` can render; the trimmed
content must additionally be non-empty (`if (!contentStr) return null`). -/
def pluginRender (e : PluginRenderElement) : Option Prim :=
  if e.type = PluginElemType.text ∧ e.content ≠ none then
    let contentStr := (e.content.getD emptyStr).trim
    if contentStr = emptyStr then none
    else some (.ptext contentStr e.x e.y)
  else none

/-- The plugin overlay layer: `pluginElements.map(...)` keeping only the
rendered elements. -/
def pluginPrims (elements : List PluginRenderElement) : List Prim :=
  elements.filterMap pluginRender

/-- Sample string for witnesses. -/
def strHello : String := "hello"

/-- A visible sample text element. -/
def tElemA : TextElement :=
  { id := strHello, content := some strHello, x := 5, y := 5, fontSize := 16, visible := true }

/-- An invisible sample text element. -/
def tElemB : TextElement :=
  { id := emptyStr, content := some strHello, x := 1, y := 2, fontSize := 16, visible := false }

/-- A sample rect-type plugin element. -/
def pElemRect : PluginRenderElement :=
  { type := PluginElemType.rect, content := some strHello, x := 3, y := 4 }

/-!
Months-layout geometry (the grid planner of `year-view-enhanced`, months
branch), over exact rationals.  All quantities follow the source lines
277-318: aspect-ratio tiering of the safe area and side padding, dot sizing
from the horizontal and vertical budgets capped at 20px, and vertical
centering with the `0.9 * SAFE_AREA_TOP` floor.
-/

/-- The layout ratio configuration (`layout` prop). -/
structure LayoutConfig where
  topPadding : ℚ
  bottomPadding : ℚ
  sidePadding : ℚ
  dotSpacing : ℚ
deriving DecidableEq

/-- Default layout ratios of the source. -/
def defaultLayout : LayoutConfig :=
  { topPadding := 0.25, bottomPadding := 0.15, sidePadding := 0.18, dotSpacing := 0.7 }

/-- Aspect ratio `height / width`. -/
def aspectR (w h : ℚ) : ℚ := h / w

/-- `SAFE_AREA_TOP`: taller screens get at least 28 percent top padding. -/
def safeAreaTop (w h : ℚ) (cfg : LayoutConfig) : ℚ :=
  if aspectR w h > 2 then h * max cfg.topPadding 0.28 else h * cfg.topPadding

/-- `SAFE_AREA_BOTTOM`. -/
def safeAreaBottom (h : ℚ) (cfg : LayoutConfig) : ℚ := h * cfg.bottomPadding

/-- `SAFE_HEIGHT`. -/
def safeHeight (w h : ℚ) (cfg : LayoutConfig) : ℚ :=
  h - safeAreaTop w h cfg - safeAreaBottom h cfg

/-- Side padding ratio, reduced on narrow screens. -/
def adjustedSidePadding (w h : ℚ) (cfg : LayoutConfig) : ℚ :=
  if aspectR w h > 2.1 then min cfg.sidePadding 0.12
  else if aspectR w h > 2 then min cfg.sidePadding 0.15
  else cfg.sidePadding

/-- `paddingX`. -/
def paddingX (w h : ℚ) (cfg : LayoutConfig) : ℚ := w * adjustedSidePadding w h cfg

/-- `availableWidth`. -/
def availableWidth (w h : ℚ) (cfg : LayoutConfig) : ℚ := w - paddingX w h cfg * 2

/-- `cellWidth`: three month columns. -/
def cellWidth (w h : ℚ) (cfg : LayoutConfig) : ℚ := availableWidth w h cfg / 3

/-- `maxDotSizeH = cellWidth / 8`. -/
def maxDotSizeH (w h : ℚ) (cfg : LayoutConfig) : ℚ := cellWidth w h cfg / 8

/-- `maxDotSizeV = (SAFE_HEIGHT / 4) / 9`. -/
def maxDotSizeV (w h : ℚ) (cfg : LayoutConfig) : ℚ := safeHeight w h cfg / 4 / 9

/-- `dotSize = min(maxDotSizeH, maxDotSizeV, cellWidth / 7, 20)`. -/
def dotSize (w h : ℚ) (cfg : LayoutConfig) : ℚ :=
  min (min (maxDotSizeH w h cfg) (maxDotSizeV w h cfg)) (min (cellWidth w h cfg / 7) 20)

/-- `dotGap = dotSize * dotSpacing`. -/
def dotGap (w h : ℚ) (cfg : LayoutConfig) : ℚ := dotSize w h cfg * cfg.dotSpacing

/-- `monthLabelSize = dotSize * 1.6`. -/
def monthLabelSize (w h : ℚ) (cfg : LayoutConfig) : ℚ := dotSize w h cfg * 1.6

/-- `monthBlockHeight = monthLabelSize + dotSize + 6 * dotSize + 5 * dotGap`. -/
def monthBlockHeight (w h : ℚ) (cfg : LayoutConfig) : ℚ :=
  monthLabelSize w h cfg + dotSize w h cfg + 6 * dotSize w h cfg + 5 * dotGap w h cfg

/-- `rowGap = monthLabelSize * 1.0`. -/
def rowGap (w h : ℚ) (cfg : LayoutConfig) : ℚ := monthLabelSize w h cfg * 1

/-- `statsFontSize = monthLabelSize`. -/
def statsFontSize (w h : ℚ) (cfg : LayoutConfig) : ℚ := monthLabelSize w h cfg

/-- `statsMargin = rowGap * 3.0`. -/
def statsMargin (w h : ℚ) (cfg : LayoutConfig) : ℚ := rowGap w h cfg * 3

/-- `gridHeight = ROWS * monthBlockHeight + (ROWS - 1) * rowGap` with 4 rows. -/
def gridHeight (w h : ℚ) (cfg : LayoutConfig) : ℚ :=
  4 * monthBlockHeight w h cfg + 3 * rowGap w h cfg

/-- `totalContentHeight`. -/
def totalContentHeight (w h : ℚ) (cfg : LayoutConfig) : ℚ :=
  gridHeight w h cfg + statsMargin w h cfg + statsFontSize w h cfg

/-- `calculatedStartY`: vertical centering of the content in the safe area. -/
def calculatedStartY (w h : ℚ) (cfg : LayoutConfig) : ℚ :=
  safeAreaTop w h cfg + (safeHeight w h cfg - totalContentHeight w h cfg) / 2

/-- `startY = max(SAFE_AREA_TOP * 0.9, calculatedStartY)`. -/
def startY (w h : ℚ) (cfg : LayoutConfig) : ℚ :=
  max (safeAreaTop w h cfg * 0.9) (calculatedStartY w h cfg)

/-- `statsY`. -/
def statsY (w h : ℚ) (cfg : LayoutConfig) : ℚ :=
  startY w h cfg + gridHeight w h cfg + statsMargin w h cfg

/-- Month block `x` (before centering): `paddingX + colIndex * cellWidth`. -/
def blockX (w h : ℚ) (cfg : LayoutConfig) (mi : Nat) : ℚ :=
  paddingX w h cfg + ((mi % 3 : Nat) : ℚ) * cellWidth w h cfg

/-- Month block `y`: `startY + rowIndex * (monthBlockHeight + rowGap)`. -/
def blockY (w h : ℚ) (cfg : LayoutConfig) (mi : Nat) : ℚ :=
  startY w h cfg + ((mi / 3 : Nat) : ℚ) * (monthBlockHeight w h cfg + rowGap w h cfg)

/-- `dotGridWidth = 7 * dotSize + 6 * dotGap`. -/
def dotGridWidth (w h : ℚ) (cfg : LayoutConfig) : ℚ :=
  7 * dotSize w h cfg + 6 * dotGap w h cfg

/-- `centerOffset = max(0, (cellWidth - dotGridWidth) / 2)`. -/
def centerOffset (w h : ℚ) (cfg : LayoutConfig) : ℚ :=
  max 0 ((cellWidth w h cfg - dotGridWidth w h cfg) / 2)

/-- Absolute left edge of the dot in slot `s` of month block `mi`. -/
def dotLeft (w h : ℚ) (cfg : LayoutConfig) (mi s : Nat) : ℚ :=
  blockX w h cfg mi + centerOffset w h cfg + ((s % 7 : Nat) : ℚ) * (dotSize w h cfg + dotGap w h cfg)

/-- Absolute top edge of the dot in slot `s` of month block `mi` (the label
box of height `monthLabelSize` plus its `marginBottom` of `dotSize` sit
above the dot rows). -/
def dotTop (w h : ℚ) (cfg : LayoutConfig) (mi s : Nat) : ℚ :=
  blockY w h cfg mi + monthLabelSize w h cfg + dotSize w h cfg +
    ((s / 7 : Nat) : ℚ) * (dotSize w h cfg + dotGap w h cfg)

/-!
Scene composition of the year view (months layout).  The component receives
`currentDate` and `timezone` props, but only `currentDate.getFullYear()` is
actually consumed; `currentDayOfYear`, `daysLeft` and `totalDays` come from
the `lib/calcs` functions, which read the system clock (`new Date()`)
directly and silently ignore the timezone argument the component passes.
That hidden clock read is the explicit `sysNow` parameter below, kept apart
from the explicit prop `currentDate`.
-/

/-- Positioned scene primitive of one grid dot. -/
def dotPrim (w h : ℚ) (cfg : LayoutConfig) (d : YearDot) : Prim :=
  .dot (dotLeft w h cfg d.month d.slot) (dotTop w h cfg d.month d.slot) (dotSize w h cfg)
    d.state

/-- The grid layer of the months layout: every day dot, positioned. -/
def monthsGridPrims (w h : ℚ) (cfg : LayoutConfig) (y : Int) (mf : Bool) (c : Int) :
    List Prim :=
  (monthsDots y mf c).map (dotPrim w h cfg)

/-- Composition of the year view (months layout): grid dots, then the stats
footer (when visible), then user text elements, then plugin elements —
later entries draw on top. -/
def yearViewMonthsScene (w h : ℚ) (cfg : LayoutConfig) (statsVisible : Bool)
    (textElements : List TextElement) (pluginElements : List PluginRenderElement)
    (mf : Bool) (currentDate : JSDate) (sysNow : JSDate) : List Prim :=
  let currentYear := currentDate.year
  let c := getCurrentDayOfYear sysNow
  let daysLeft := calculateDaysLeftInYear sysNow
  let totalDays := getTotalDaysInCurrentYear sysNow
  monthsGridPrims w h cfg currentYear mf c ++
    (if statsVisible then [Prim.stats (statsLine daysLeft c totalDays) (statsY w h cfg)]
      else []) ++
    textPrims textElements ++ pluginPrims pluginElements

/-- Color state carried by a primitive (`none` for non-dot primitives). -/
def primState : Prim → Option CellState
  | .dot _ _ _ st => some st
  | _ => none

theorem jsFloorDiv_eq (a : Int) (b : Nat) : jsFloorDiv a b = a / (b : Int) := by
  unfold jsFloorDiv
  exact_mod_cast Rat.floor_intCast_div_natCast a b

theorem calculateWeeksLived_eq (birth today : JSDate) :
    calculateWeeksLived birth today = (today.getTime - birth.getTime) / 604800000 := by
  unfold calculateWeeksLived
  rw [div_div]
  have h : ((86400000 : ℚ) * 7) = ((604800000 : Nat) : ℚ) := by norm_num
  rw [h]
  exact_mod_cast Rat.floor_intCast_div_natCast (today.getTime - birth.getTime) 604800000

theorem getCurrentDayOfYear_closed (y m d t : Int) (h0 : 0 ≤ t) (h1 : t < 86400000) :
    getCurrentDayOfYear ⟨y, m, d, t⟩ = daysBeforeMonth y m + d := by
  unfold getCurrentDayOfYear
  dsimp only
  rw [jsFloorDiv_eq]
  unfold JSDate.getTime daysFromCivil
  dsimp only
  have hb1 : daysBeforeMonth y 1 = 0 := by simp [daysBeforeMonth]
  rw [hb1]
  push_cast
  omega

theorem dayState_past_iff (day c : Int) : dayState day c = .past ↔ day < c := by
  unfold dayState
  split_ifs with h1 h2 <;> simp_all

theorem dayState_current_iff (day c : Int) : dayState day c = .current ↔ day = c := by
  unfold dayState
  split_ifs with h1 h2 <;> simp_all
  omega

theorem dayState_future_iff (day c : Int) : dayState day c = .future ↔ c < day := by
  unfold dayState
  split_ifs with h1 h2 <;> simp_all <;> omega

theorem countP_range_day (n : Nat) (c : Int) :
    (List.range n).countP (fun (i : Nat) => decide ((i : Int) + 1 = c)) =
      if 1 ≤ c ∧ c ≤ (n : Int) then 1 else 0 := by
  induction n with
  | zero =>
    rw [List.range_zero]
    rw [if_neg (by push_cast; omega)]
    rfl
  | succ n ih =>
    rw [List.range_succ, List.countP_append, ih, List.countP_cons, List.countP_nil]
    simp only [decide_eq_true_eq]
    split_ifs <;> push_cast at * <;> omega

/-!
Structural characterization of the months-layout loops: each month block
emits exactly its days, numbered consecutively by the running counter.
-/

theorem monthSlots_skip (sd dim : Nat) (c : Int) (m : Nat) :
    ∀ (l : List Nat) (k : Int), (∀ i ∈ l, i < sd ∨ sd + dim ≤ i) →
      monthSlots sd dim c m l k = ([], k) := by
  intro l
  induction l with
  | nil => intro k _; rfl
  | cons i rest ih =>
    intro k h
    have hi := h i (List.mem_cons_self i rest)
    have hcond : ¬(0 < (i : Int) - sd + 1 ∧ (i : Int) - sd + 1 ≤ (dim : Int)) := by
      omega
    unfold monthSlots
    dsimp only
    rw [if_neg hcond]
    exact ih k (fun j hj => h j (List.mem_cons_of_mem i hj))

theorem monthSlots_run (sd dim : Nat) (c : Int) (m : Nat) :
    ∀ (f j : Nat) (k : Int), j + f ≤ dim →
      monthSlots sd dim c m (List.range' (sd + j) f) k =
        ((List.range f).map (fun t => ⟨m, sd + j + t, k + 1 + t, dayState (k + 1 + t) c⟩),
          k + f) := by
  intro f
  induction f with
  | zero =>
    intro j k _
    simp [monthSlots]
  | succ f ih =>
    intro j k h
    rw [List.range'_succ]
    unfold monthSlots
    dsimp only
    rw [if_pos (by push_cast; omega)]
    have harg : sd + j + 1 = sd + (j + 1) := by omega
    rw [harg, ih (j + 1) (k + 1) (by omega)]
    rw [List.range_succ_eq_map, List.map_cons, List.map_map]
    simp only [Prod.mk.injEq, List.cons.injEq]
    refine ⟨⟨?_, ?_⟩, by push_cast; ring⟩
    · simp
    · apply List.map_congr_left
      intro t _
      simp only [Function.comp_apply, YearDot.mk.injEq]
      refine ⟨trivial, by omega, by push_cast; ring_nf, ?_⟩
      congr 1
      push_cast
      ring

theorem monthSlots_cons (sd dim : Nat) (c : Int) (m i : Nat) (rest : List Nat) (k : Int) :
    monthSlots sd dim c m (i :: rest) k =
      if 0 < (i : Int) - sd + 1 ∧ (i : Int) - sd + 1 ≤ (dim : Int) then
        (⟨m, i, k + 1, dayState (k + 1) c⟩ :: (monthSlots sd dim c m rest (k + 1)).1,
          (monthSlots sd dim c m rest (k + 1)).2)
      else monthSlots sd dim c m rest k := rfl

theorem monthSlots_append (sd dim : Nat) (c : Int) (m : Nat) :
    ∀ (l1 l2 : List Nat) (k : Int),
      monthSlots sd dim c m (l1 ++ l2) k =
        ((monthSlots sd dim c m l1 k).1 ++
            (monthSlots sd dim c m l2 (monthSlots sd dim c m l1 k).2).1,
          (monthSlots sd dim c m l2 (monthSlots sd dim c m l1 k).2).2) := by
  intro l1
  induction l1 with
  | nil => intro l2 k; simp [monthSlots]
  | cons i rest ih =>
    intro l2 k
    simp only [List.cons_append, monthSlots_cons]
    by_cases hcond : 0 < (i : Int) - sd + 1 ∧ (i : Int) - sd + 1 ≤ (dim : Int)
    · rw [if_pos hcond, if_pos hcond, ih]
      simp
    · rw [if_neg hcond, if_neg hcond, ih]

theorem monthDots_eq (sd dim : Nat) (c : Int) (m : Nat) (k : Int) (hsd : sd + dim ≤ 42) :
    monthDots sd dim c m k =
      ((List.range dim).map (fun t => ⟨m, sd + t, k + 1 + t, dayState (k + 1 + t) c⟩),
        k + dim) := by
  unfold monthDots
  have hsplit : List.range 42 =
      (List.range' 0 sd ++ List.range' sd dim) ++ List.range' (sd + dim) (42 - sd - dim) := by
    have h1 := List.range'_append 0 sd dim 1
    have h2 := List.range'_append 0 (dim + sd) (42 - sd - dim) 1
    rw [show (0 : Nat) + 1 * sd = sd from by omega] at h1
    rw [show (0 : Nat) + 1 * (dim + sd) = sd + dim from by omega] at h2
    rw [h1, h2, List.range_eq_range']
    congr 1
    omega
  rw [hsplit]
  rw [monthSlots_append, monthSlots_append]
  have hpre : monthSlots sd dim c m (List.range' 0 sd) k = ([], k) := by
    apply monthSlots_skip
    intro i hi
    rw [List.mem_range'_1] at hi
    omega
  have hrun := monthSlots_run sd dim c m dim 0 k (by omega)
  simp only [Nat.add_zero] at hrun
  have hpost : monthSlots sd dim c m (List.range' (sd + dim) (42 - sd - dim)) (k + dim) =
      ([], k + dim) := by
    apply monthSlots_skip
    intro i hi
    rw [List.mem_range'_1] at hi
    omega
  rw [hpre]
  dsimp only
  rw [hrun]
  dsimp only
  rw [hpost]
  simp

theorem getFirstDayOfMonth_lt (mf : Bool) (y : Int) (mi : Nat) :
    getFirstDayOfMonth mf y mi < 7 := by
  unfold getFirstDayOfMonth
  have h1 : 0 ≤ (daysFromCivil y ((mi : Int) + 1) 1 + 4) % 7 := Int.emod_nonneg _ (by norm_num)
  have h2 : (daysFromCivil y ((mi : Int) + 1) 1 + 4) % 7 < 7 :=
    Int.emod_lt_of_pos _ (by norm_num)
  unfold getDayOfWeek
  dsimp only
  split_ifs <;> omega

theorem getDaysInMonth_le (y : Int) (mi : Nat) : getDaysInMonth y mi ≤ 31 := by
  rcases mi with _|_|_|_|_|_|_|_|_|_|_|_|n
  all_goals simp [getDaysInMonth]
  split <;> omega

theorem monthsAux_spec (y : Int) (mf : Bool) (c : Int) :
    ∀ (l : List Nat) (k : Int),
      ((monthsAux y mf c l k).map (fun d => d.global) =
        (List.range (monthsDim y l)).map (fun (t : Nat) => k + 1 + t)) ∧
      (∀ d ∈ monthsAux y mf c l k, d.state = dayState d.global c) := by
  intro l
  induction l with
  | nil =>
    intro k
    simp [monthsAux, monthsDim]
  | cons mi rest ih =>
    intro k
    unfold monthsAux
    dsimp only
    have hbound : getFirstDayOfMonth mf y mi + getDaysInMonth y mi ≤ 42 := by
      have := getFirstDayOfMonth_lt mf y mi
      have := getDaysInMonth_le y mi
      omega
    rw [monthDots_eq _ _ _ _ _ hbound]
    dsimp only
    obtain ⟨ihg, ihs⟩ := ih (k + getDaysInMonth y mi)
    have hdim : monthsDim y (mi :: rest) = getDaysInMonth y mi + monthsDim y rest := by
      simp [monthsDim]
    constructor
    · rw [List.map_append, ihg, List.map_map, hdim, List.range_add, List.map_append,
        List.map_map]
      congr 1
      all_goals
        apply List.map_congr_left
        intro t _
        simp only [Function.comp_apply]
        push_cast
        ring
    · intro d hd
      rcases List.mem_append.mp hd with h1 | h2
      · obtain ⟨t, _, rfl⟩ := List.mem_map.mp h1
        rfl
      · exact ihs d h2

theorem monthsDim_all (y : Int) : monthsDim y monthIndices = totalDaysNat y := by
  unfold monthsDim monthIndices totalDaysNat
  cases h : isLeapYear y <;> simp [getDaysInMonth, h]

theorem monthsDots_spec (y : Int) (mf : Bool) (c : Int) :
    ((monthsDots y mf c).map (fun d => d.global) =
      (List.range (totalDaysNat y)).map (fun (t : Nat) => (t : Int) + 1)) ∧
    (∀ d ∈ monthsDots y mf c, d.state = dayState d.global c) := by
  unfold monthsDots
  obtain ⟨hg, hs⟩ := monthsAux_spec y mf c monthIndices 0
  rw [monthsDim_all] at hg
  refine ⟨?_, hs⟩
  rw [hg]
  apply List.map_congr_left
  intro t _
  omega

theorem monthsDots_count_current (y : Int) (mf : Bool) (c : Int) :
    (monthsDots y mf c).countP (fun d => decide (d.state = CellState.current)) =
      if 1 ≤ c ∧ c ≤ (totalDaysNat y : Int) then 1 else 0 := by
  obtain ⟨hg, hs⟩ := monthsDots_spec y mf c
  have step1 : (monthsDots y mf c).countP (fun d => decide (d.state = CellState.current)) =
      (monthsDots y mf c).countP (fun d => decide (d.global = c)) := by
    apply List.countP_congr
    intro d hd
    rw [hs d hd]
    simp [dayState_current_iff]
  have step2 : (monthsDots y mf c).countP (fun d => decide (d.global = c)) =
      ((monthsDots y mf c).map (fun d => d.global)).countP (fun g => decide (g = c)) := by
    rw [List.countP_map]
    rfl
  rw [step1, step2, hg, List.countP_map]
  have hfun : ((fun (g : Int) => decide (g = c)) ∘ (fun (t : Nat) => (t : Int) + 1)) =
      (fun (i : Nat) => decide ((i : Int) + 1 = c)) := by
    funext t
    simp
  rw [hfun, countP_range_day]

theorem daysDots_count_current (n offset : Nat) (c : Int) :
    (daysDots n offset c).countP (fun d => decide (d.state = CellState.current)) =
      if 1 ≤ c ∧ c ≤ (n : Int) then 1 else 0 := by
  unfold daysDots
  rw [List.countP_map]
  have hfun : ((fun (d : DayDot) => decide (d.state = CellState.current)) ∘
      (fun (idx : Nat) =>
        let cellIndex := idx + offset
        { day := (idx : Int) + 1, row := cellIndex / 14, col := cellIndex % 14,
          state := dayState ((idx : Int) + 1) c : DayDot })) =
      (fun (i : Nat) => decide ((i : Int) + 1 = c)) := by
    funext idx
    simp [dayState_current_iff]
  rw [hfun, countP_range_day]

theorem daysDots_mem (n offset : Nat) (c : Int) (d : DayDot) (hd : d ∈ daysDots n offset c) :
    d.state = dayState d.day c ∧ 1 ≤ d.day ∧ d.day ≤ (n : Int) ∧
      d.row < rowsCount n offset ∧ d.col < 14 := by
  unfold daysDots at hd
  obtain ⟨idx, hidx, rfl⟩ := List.mem_map.mp hd
  rw [List.mem_range] at hidx
  refine ⟨rfl, by push_cast; omega, by push_cast; omega, ?_, ?_⟩
  · show (idx + offset) / 14 < rowsCount n offset
    unfold rowsCount
    omega
  · show (idx + offset) % 14 < 14
    omega

/-- C1: for every valid pair (totalCells, currentIndex), i.e. whenever the
1-based current day `c` satisfies `1 ≤ c ≤ totalDays`, the composed year-view
grid (days layout with any start offset, and months layout with either
Monday-first setting) contains exactly one `current` cell, namely the cell
whose 1-based day number equals the current day of the year; every cell with
a smaller day number is `past` and every cell with a larger one `future`. -/
theorem spec_C1 (y c : Int) (mf : Bool) (offset : Nat)
    (h1 : 1 ≤ c) (h2 : c ≤ (totalDaysNat y : Int)) : C1Prop y mf offset c := by
  unfold C1Prop
  obtain ⟨hg, hs⟩ := monthsDots_spec y mf c
  refine ⟨?_, ?_, hg, ?_, ?_⟩
  · rw [daysDots_count_current, if_pos ⟨h1, h2⟩]
  · intro d hd
    obtain ⟨hstate, _, _, _, _⟩ := daysDots_mem _ _ _ d hd
    rw [hstate]
    exact ⟨dayState_past_iff _ _, dayState_current_iff _ _, dayState_future_iff _ _⟩
  · rw [monthsDots_count_current, if_pos ⟨h1, h2⟩]
  · intro d hd
    rw [hs d hd]
    exact ⟨dayState_past_iff _ _, dayState_current_iff _ _, dayState_future_iff _ _⟩

theorem spec_C1_witness :
    (1 ≤ (197 : Int)) ∧ ((197 : Int) ≤ (totalDaysNat 2024 : Int)) ∧ C1Prop 2024 false 1 197 :=
  ⟨by decide, by decide, spec_C1 2024 197 false 1 (by decide) (by decide)⟩

/-- C7: for a reference date of January 1 of any year the current day of
year equals 1; for December 31 of a non-leap year it equals 365 and the days
left in the year equal 0 (at any time of day `t`). -/
theorem spec_C7 (y z t : Int) (h0 : 0 ≤ t) (h1 : t < 86400000)
    (hz : isLeapYear z = false) :
    getCurrentDayOfYear ⟨y, 1, 1, t⟩ = 1 ∧
    getCurrentDayOfYear ⟨z, 12, 31, t⟩ = 365 ∧
    calculateDaysLeftInYear ⟨z, 12, 31, t⟩ = 0 := by
  have hjan := getCurrentDayOfYear_closed y 1 1 t h0 h1
  have hdec := getCurrentDayOfYear_closed z 12 31 t h0 h1
  have hb1 : daysBeforeMonth y 1 = 0 := by simp [daysBeforeMonth]
  have hb12 : daysBeforeMonth z 12 = 334 := by simp [daysBeforeMonth, hz]
  refine ⟨by rw [hjan, hb1]; norm_num, by rw [hdec, hb12]; norm_num, ?_⟩
  unfold calculateDaysLeftInYear
  dsimp only
  rw [hz, hdec, hb12]
  norm_num

theorem spec_C7_witness :
    ((0 : Int) ≤ 0 ∧ (0 : Int) < 86400000 ∧ isLeapYear 2023 = false) ∧
    (getCurrentDayOfYear ⟨2024, 1, 1, 0⟩ = 1 ∧ getCurrentDayOfYear ⟨2023, 12, 31, 0⟩ = 365 ∧
      calculateDaysLeftInYear ⟨2023, 12, 31, 0⟩ = 0) :=
  ⟨⟨by decide, by decide, by decide⟩, spec_C7 2024 2023 0 (by decide) (by decide) (by decide)⟩

theorem isLeapYear_iff (y : Int) :
    isLeapYear y = true ↔ ((y % 4 = 0 ∧ y % 100 ≠ 0) ∨ y % 400 = 0) := by
  simp [isLeapYear]

/-- C8: the total-days-in-year computation follows the Gregorian rule (a
year is leap iff divisible by 4 and not by 100, or divisible by 400, giving
366 days, else 365), and the years 2000, 2023, 2024, 2100 give 366, 365,
366, 365 respectively. -/
theorem spec_C8 :
    (∀ today : JSDate, getTotalDaysInCurrentYear today =
      if (today.year % 4 = 0 ∧ today.year % 100 ≠ 0) ∨ today.year % 400 = 0
      then 366 else 365) ∧
    getTotalDaysInCurrentYear ⟨2000, 6, 1, 0⟩ = 366 ∧
    getTotalDaysInCurrentYear ⟨2023, 6, 1, 0⟩ = 365 ∧
    getTotalDaysInCurrentYear ⟨2024, 6, 1, 0⟩ = 366 ∧
    getTotalDaysInCurrentYear ⟨2100, 6, 1, 0⟩ = 365 := by
  refine ⟨?_, by decide, by decide, by decide, by decide⟩
  intro today
  simp only [getTotalDaysInCurrentYear, isLeapYear_iff]

/-- C3 counterexample: a birth date one day in the future of the reference
date makes `calculateWeeksLived` return -1, which is negative — the claimed
clamp at 0 does not exist in the code. -/
theorem spec_C3_counterexample :
    calculateWeeksLived ⟨2024, 7, 16, 0⟩ ⟨2024, 7, 15, 0⟩ = -1 := by
  rw [calculateWeeksLived_eq]
  decide

/-- C3 amended: the weeks-lived computation returns the floor of the
millisecond difference divided by one week (equivalently, floor of the day
difference divided by 7); it never throws (it is a total function), but it
is NOT clamped: the result is negative exactly when the birth instant lies
strictly in the future of the reference instant. -/
theorem spec_C3 (birth today : JSDate) :
    calculateWeeksLived birth today = (today.getTime - birth.getTime) / 604800000 ∧
    (0 ≤ calculateWeeksLived birth today ↔ birth.getTime ≤ today.getTime) := by
  refine ⟨calculateWeeksLived_eq birth today, ?_⟩
  rw [calculateWeeksLived_eq]
  omega

/-- C4 counterexample: with 365 cells and a current day of year of 366
(current index just past the last cell) the days grid contains NO current
cell — the code does not clamp `Current` to the last cell, contradicting
the claim that it is never the case that no cell is current. -/
theorem spec_C4_counterexample :
    (daysDots 365 0 366).countP (fun d => decide (d.state = CellState.current)) = 0 := by
  rw [daysDots_count_current, if_neg (by omega)]

/-- C4 amended: when the computed current index exceeds the last valid cell,
no cell is marked `current` at all — every cell renders as `past` (there is
no clamping); no cell is placed outside the grid's bounds (rows stay below
the computed row count and columns below 14). -/
theorem spec_C4 (n offset : Nat) (c : Int) (hover : (n : Int) < c) :
    (∀ d ∈ daysDots n offset c, d.state = CellState.past) ∧
    (daysDots n offset c).countP (fun d => decide (d.state = CellState.current)) = 0 ∧
    (∀ d ∈ daysDots n offset c, d.row < rowsCount n offset ∧ d.col < 14) := by
  refine ⟨?_, ?_, ?_⟩
  · intro d hd
    obtain ⟨hstate, hd1, hd2, _, _⟩ := daysDots_mem n offset c d hd
    rw [hstate, dayState_past_iff]
    omega
  · rw [daysDots_count_current, if_neg (by omega)]
  · intro d hd
    obtain ⟨_, _, _, hr, hc⟩ := daysDots_mem n offset c d hd
    exact ⟨hr, hc⟩

theorem spec_C4_witness :
    ((365 : Int) < 366) ∧
    ((∀ d ∈ daysDots 365 1 366, d.state = CellState.past) ∧
      (daysDots 365 1 366).countP (fun d => decide (d.state = CellState.current)) = 0 ∧
      (∀ d ∈ daysDots 365 1 366, d.row < rowsCount 365 1 ∧ d.col < 14)) :=
  ⟨by decide, spec_C4 365 1 366 (by decide)⟩

theorem jsRound_197_366 : jsRound (((197 : Int) : ℚ) / ((366 : Int) : ℚ) * 100) = 54 := by
  unfold jsRound
  have h1 : (((197 : Int) : ℚ) / ((366 : Int) : ℚ) * 100 + 1 / 2) =
      ((39766 : Int) : ℚ) / ((732 : Nat) : ℚ) := by
    push_cast
    norm_num
  rw [h1, Rat.floor_intCast_div_natCast]
  decide

theorem statsLine_concrete : statsLine 169 197 366 = "169d left · 54%" := by
  unfold statsLine
  rw [jsRound_197_366]
  decide

/-- C5: with the system clock on 2024-07-15 (leap year, day 197 of 366) the
year view computes `daysLeft = 169`, renders the stats line
`"169d left · 54%"`, and its months grid holds exactly 366 non-empty cells
of which exactly one — the one with global day index 197 — is `current`. -/
theorem spec_C5 (t : Int) (h0 : 0 ≤ t) (h1 : t < 86400000) :
    getCurrentDayOfYear ⟨2024, 7, 15, t⟩ = 197 ∧
    getTotalDaysInCurrentYear ⟨2024, 7, 15, t⟩ = 366 ∧
    calculateDaysLeftInYear ⟨2024, 7, 15, t⟩ = 169 ∧
    statsLine (calculateDaysLeftInYear ⟨2024, 7, 15, t⟩)
        (getCurrentDayOfYear ⟨2024, 7, 15, t⟩)
        (getTotalDaysInCurrentYear ⟨2024, 7, 15, t⟩) = "169d left · 54%" ∧
    (monthsDots 2024 false 197).length = 366 ∧
    (monthsDots 2024 false 197).countP (fun d => decide (d.state = CellState.current)) = 1 ∧
    (∀ d ∈ monthsDots 2024 false 197, (d.state = CellState.current ↔ d.global = 197)) := by
  have hleap : isLeapYear 2024 = true := by decide
  have h197 : getCurrentDayOfYear ⟨2024, 7, 15, t⟩ = 197 := by
    rw [getCurrentDayOfYear_closed 2024 7 15 t h0 h1]
    simp [daysBeforeMonth, hleap]
  have htot : getTotalDaysInCurrentYear ⟨2024, 7, 15, t⟩ = 366 := by
    unfold getTotalDaysInCurrentYear
    rw [hleap]
    rfl
  have hdays : calculateDaysLeftInYear ⟨2024, 7, 15, t⟩ = 169 := by
    unfold calculateDaysLeftInYear
    dsimp only
    rw [hleap, h197]
    norm_num
  have hlen : (monthsDots 2024 false 197).length = 366 := by
    have h := congrArg List.length (monthsDots_spec 2024 false 197).1
    rw [List.length_map, List.length_map, List.length_range] at h
    rw [h]
    decide
  refine ⟨h197, htot, hdays, ?_, hlen, ?_, ?_⟩
  · rw [hdays, h197, htot]
    exact statsLine_concrete
  · rw [monthsDots_count_current, if_pos (by decide)]
  · intro d hd
    rw [(monthsDots_spec 2024 false 197).2 d hd]
    exact dayState_current_iff _ _

theorem spec_C5_witness :
    ((0 : Int) ≤ 0 ∧ (0 : Int) < 86400000) ∧
    (getCurrentDayOfYear ⟨2024, 7, 15, 0⟩ = 197 ∧
      getTotalDaysInCurrentYear ⟨2024, 7, 15, 0⟩ = 366 ∧
      calculateDaysLeftInYear ⟨2024, 7, 15, 0⟩ = 169 ∧
      statsLine (calculateDaysLeftInYear ⟨2024, 7, 15, 0⟩)
          (getCurrentDayOfYear ⟨2024, 7, 15, 0⟩)
          (getTotalDaysInCurrentYear ⟨2024, 7, 15, 0⟩) = "169d left · 54%" ∧
      (monthsDots 2024 false 197).length = 366 ∧
      (monthsDots 2024 false 197).countP (fun d => decide (d.state = CellState.current)) = 1 ∧
      (∀ d ∈ monthsDots 2024 false 197, (d.state = CellState.current ↔ d.global = 197))) :=
  ⟨⟨by decide, by decide⟩, spec_C5 0 (by decide) (by decide)⟩

/-- C9 counterexample: a visible user text element whose content is the
EMPTY string is not skipped — it contributes a primitive to the composed
scene, contrary to the claim that empty content is skipped (the source only
checks `content == null` and `visible`). -/
theorem spec_C9_counterexample :
    textPrims
      [{ id := emptyStr, content := some emptyStr, x := 10, y := 10, fontSize := 16,
          visible := true }] ≠ [] := by
  decide

/-- C9 amended: a user text element with null content or `visible = false`
is skipped, and it is dropped locally — the primitives of the elements
before and after it are composed exactly as if it were absent, so one bad
overlay element never aborts composition.  (An EMPTY string content,
however, still produces an empty text primitive.) -/
theorem spec_C9 (pre post : List TextElement) (e : TextElement)
    (h : e.visible = false ∨ e.content = none) :
    textPrims (pre ++ e :: post) = textPrims pre ++ textPrims post := by
  unfold textPrims
  rw [List.filterMap_append]
  congr 1
  have he : textRender e = none := by
    unfold textRender
    rw [if_pos h]
  rw [List.filterMap_cons, he]

theorem spec_C9_witness :
    (tElemB.visible = false ∨ tElemB.content = none) ∧
    textPrims ([] ++ tElemB :: [tElemA]) = textPrims [] ++ textPrims [tElemA] :=
  ⟨Or.inl rfl, spec_C9 [] [tElemA] tElemB (Or.inl rfl)⟩

/-- C10: a plugin element produces a primitive iff it has type `text`, a
non-null content, and a non-empty trimmed content; every element of type
`rect`, `circle` or `line` is silently omitted from the scene. -/
theorem spec_C10 :
    (∀ e : PluginRenderElement,
      ((pluginRender e).isSome ↔
        (e.type = PluginElemType.text ∧ ∃ s, e.content = some s ∧ s.trim ≠ emptyStr))) ∧
    (∀ e : PluginRenderElement, e.type ≠ PluginElemType.text → pluginRender e = none) := by
  constructor
  · intro e
    unfold pluginRender
    rcases hc : e.content with _ | s
    · simp [hc]
    · by_cases ht : e.type = PluginElemType.text
      · rw [if_pos ⟨ht, by simp [hc]⟩]
        dsimp only
        by_cases hs : ((some s).getD emptyStr).trim = emptyStr
        · rw [if_pos hs]
          simp only [Option.getD_some] at hs
          simp [ht, hs]
        · rw [if_neg hs]
          simp only [Option.getD_some] at hs
          simp [ht, hs]
      · rw [if_neg (by tauto)]
        simp [ht]
  · intro e ht
    unfold pluginRender
    rw [if_neg (by tauto)]

theorem spec_C10_witness : pluginRender pElemRect = none :=
  spec_C10.2 pElemRect (by decide)

set_option maxRecDepth 4000 in
/-- C6 counterexample: on a 100 x 100 canvas with the default layout the
months grid overflows the canvas itself — the December 31 dot (month 11,
slot 30, a populated day cell of year 2024) has its bottom edge below
`y = 100`.  Grid containment therefore fails for general positive canvases. -/
theorem spec_C6_counterexample :
    (⟨11, 30, 366, CellState.future⟩ : YearDot) ∈ monthsDots 2024 false 1 ∧
    (100 : ℚ) < dotTop 100 100 defaultLayout 11 30 + dotSize 100 100 defaultLayout := by
  constructor
  · decide
  · norm_num [dotTop, dotSize, blockY, startY, calculatedStartY, totalContentHeight,
      gridHeight, statsMargin, statsFontSize, rowGap, monthBlockHeight, monthLabelSize,
      dotGap, maxDotSizeH, maxDotSizeV, cellWidth, availableWidth, paddingX,
      adjustedSidePadding, safeHeight, safeAreaBottom, safeAreaTop, aspectR, defaultLayout]

/-- C6 amended: grid containment does NOT hold for every positive canvas
(see the counterexample), but it does hold whenever the computed content
fits its budgets: if the total content height is at most the safe height and
the dot-grid width at most the cell width — true in particular for the
canonical 1170 x 2532 portrait canvas — then with the default layout every
dot of every month block lies inside the side padding horizontally and
inside the safe area vertically. -/
theorem spec_C6 (w h : ℚ) (hw : 0 < w) (hh : 0 < h)
    (hv : totalContentHeight w h defaultLayout ≤ safeHeight w h defaultLayout)
    (hhor : dotGridWidth w h defaultLayout ≤ cellWidth w h defaultLayout)
    (mi s : Nat) (hmi : mi < 12) (hs : s < 42) :
    paddingX w h defaultLayout ≤ dotLeft w h defaultLayout mi s ∧
    dotLeft w h defaultLayout mi s + dotSize w h defaultLayout ≤
      w - paddingX w h defaultLayout ∧
    safeAreaTop w h defaultLayout ≤ dotTop w h defaultLayout mi s ∧
    dotTop w h defaultLayout mi s + dotSize w h defaultLayout ≤
      h - safeAreaBottom h defaultLayout := by
  set L := defaultLayout with hL
  have hmax : max (0.25 : ℚ) 0.28 = 0.28 := by norm_num
  have hsat0 : 0 ≤ safeAreaTop w h L ∧ safeAreaTop w h L ≤ 0.28 * h := by
    rw [hL]
    unfold safeAreaTop defaultLayout
    dsimp only
    rw [hmax]
    split_ifs <;> constructor <;> nlinarith
  have hpadb : 0 ≤ adjustedSidePadding w h L ∧ adjustedSidePadding w h L ≤ 0.18 := by
    rw [hL]
    unfold adjustedSidePadding defaultLayout
    dsimp only
    split_ifs <;> constructor <;> norm_num
  have hcw : 0 ≤ cellWidth w h L := by
    have h1 : w * adjustedSidePadding w h L ≤ w * 0.18 :=
      mul_le_mul_of_nonneg_left hpadb.2 hw.le
    unfold cellWidth availableWidth paddingX
    linarith
  have hsab : safeAreaBottom h L = 0.15 * h := by
    rw [hL]
    unfold safeAreaBottom defaultLayout
    dsimp only
    ring
  have hsh0 : 0 ≤ safeHeight w h L := by
    unfold safeHeight
    rw [hsab]
    linarith [hsat0.2]
  have hd0 : 0 ≤ dotSize w h L := by
    unfold dotSize
    have h1 : 0 ≤ maxDotSizeH w h L := by
      unfold maxDotSizeH
      linarith
    have h2 : 0 ≤ maxDotSizeV w h L := by
      unfold maxDotSizeV
      linarith
    have h3 : 0 ≤ cellWidth w h L / 7 := by linarith
    have h4 : (0 : ℚ) ≤ 20 := by norm_num
    exact le_min (le_min h1 h2) (le_min h3 h4)
  have hgap : dotGap w h L = 0.7 * dotSize w h L := by
    rw [hL]
    unfold dotGap defaultLayout
    dsimp only
    ring
  have hg0 : 0 ≤ dotGap w h L := by
    rw [hgap]
    linarith
  have e_label : monthLabelSize w h L = 1.6 * dotSize w h L := by
    unfold monthLabelSize
    ring
  have e_mbh : monthBlockHeight w h L = 12.1 * dotSize w h L := by
    unfold monthBlockHeight
    rw [e_label, hgap]
    ring
  have e_rg : rowGap w h L = 1.6 * dotSize w h L := by
    unfold rowGap
    rw [e_label]
    ring
  have e_gh : gridHeight w h L = 53.2 * dotSize w h L := by
    unfold gridHeight
    rw [e_mbh, e_rg]
    ring
  have e_sm : statsMargin w h L = 4.8 * dotSize w h L := by
    unfold statsMargin
    rw [e_rg]
    ring
  have e_sf : statsFontSize w h L = 1.6 * dotSize w h L := by
    unfold statsFontSize
    rw [e_label]
  have e_tch : totalContentHeight w h L = 59.6 * dotSize w h L := by
    unfold totalContentHeight
    rw [e_gh, e_sm, e_sf]
    ring
  have e_dgw : dotGridWidth w h L = 11.2 * dotSize w h L := by
    unfold dotGridWidth
    rw [hgap]
    ring
  have hsy : startY w h L = calculatedStartY w h L := by
    unfold startY
    apply max_eq_right
    unfold calculatedStartY
    linarith [hsat0.1, hv]
  have hcob : centerOffset w h L = (cellWidth w h L - dotGridWidth w h L) / 2 := by
    unfold centerOffset
    apply max_eq_right
    linarith [hhor]
  have hmi3 : ((mi % 3 : Nat) : ℚ) ≤ 2 := by
    have hb : mi % 3 ≤ 2 := by omega
    exact_mod_cast hb
  have hmi30 : (0 : ℚ) ≤ ((mi % 3 : Nat) : ℚ) := by positivity
  have hs7 : ((s % 7 : Nat) : ℚ) ≤ 6 := by
    have hb : s % 7 ≤ 6 := by omega
    exact_mod_cast hb
  have hs70 : (0 : ℚ) ≤ ((s % 7 : Nat) : ℚ) := by positivity
  have hr3 : ((mi / 3 : Nat) : ℚ) ≤ 3 := by
    have hb : mi / 3 ≤ 3 := by omega
    exact_mod_cast hb
  have hr30 : (0 : ℚ) ≤ ((mi / 3 : Nat) : ℚ) := by positivity
  have hq7 : ((s / 7 : Nat) : ℚ) ≤ 5 := by
    have hb : s / 7 ≤ 5 := by omega
    exact_mod_cast hb
  have hq70 : (0 : ℚ) ≤ ((s / 7 : Nat) : ℚ) := by positivity
  have hdg0 : 0 ≤ dotSize w h L + dotGap w h L := by linarith
  have hmbrg0 : 0 ≤ monthBlockHeight w h L + rowGap w h L := by
    rw [e_mbh, e_rg]
    linarith
  have pb1a : 0 ≤ ((mi % 3 : Nat) : ℚ) * cellWidth w h L := mul_nonneg hmi30 hcw
  have pb1b : ((mi % 3 : Nat) : ℚ) * cellWidth w h L ≤ 2 * cellWidth w h L :=
    mul_le_mul_of_nonneg_right hmi3 hcw
  have pb2a : 0 ≤ ((s % 7 : Nat) : ℚ) * (dotSize w h L + dotGap w h L) :=
    mul_nonneg hs70 hdg0
  have pb2b : ((s % 7 : Nat) : ℚ) * (dotSize w h L + dotGap w h L) ≤
      6 * (dotSize w h L + dotGap w h L) := mul_le_mul_of_nonneg_right hs7 hdg0
  have pb3a : 0 ≤ ((mi / 3 : Nat) : ℚ) * (monthBlockHeight w h L + rowGap w h L) :=
    mul_nonneg hr30 hmbrg0
  have pb3b : ((mi / 3 : Nat) : ℚ) * (monthBlockHeight w h L + rowGap w h L) ≤
      3 * (monthBlockHeight w h L + rowGap w h L) := mul_le_mul_of_nonneg_right hr3 hmbrg0
  have pb4a : 0 ≤ ((s / 7 : Nat) : ℚ) * (dotSize w h L + dotGap w h L) :=
    mul_nonneg hq70 hdg0
  have pb4b : ((s / 7 : Nat) : ℚ) * (dotSize w h L + dotGap w h L) ≤
      5 * (dotSize w h L + dotGap w h L) := mul_le_mul_of_nonneg_right hq7 hdg0
  have hcw3 : 3 * cellWidth w h L = w - 2 * paddingX w h L := by
    unfold cellWidth availableWidth
    ring
  have h6 : 6 * (dotSize w h L + dotGap w h L) = dotGridWidth w h L - dotSize w h L := by
    unfold dotGridWidth
    ring
  refine ⟨?_, ?_, ?_, ?_⟩
  · unfold dotLeft blockX
    rw [hcob]
    linarith [pb1a, pb2a, hhor]
  · unfold dotLeft blockX
    rw [hcob]
    linarith [pb1b, pb2b, hhor, hcw, hd0, hcw3, h6]
  · unfold dotTop blockY
    rw [hsy]
    unfold calculatedStartY
    linarith [pb3a, pb4a, hv, e_label, hd0]
  · unfold dotTop blockY
    rw [hsy]
    unfold calculatedStartY
    have hsplit : h - safeAreaBottom h L = safeAreaTop w h L + safeHeight w h L := by
      unfold safeHeight
      ring
    rw [hsplit]
    linarith [pb3b, pb4b, e_mbh, e_rg, e_label, hgap, e_tch, hv, hd0]

theorem spec_C6_witness :
    ((0 : ℚ) < 1170 ∧ (0 : ℚ) < 2532 ∧
      totalContentHeight 1170 2532 defaultLayout ≤ safeHeight 1170 2532 defaultLayout ∧
      dotGridWidth 1170 2532 defaultLayout ≤ cellWidth 1170 2532 defaultLayout) ∧
    (paddingX 1170 2532 defaultLayout ≤ dotLeft 1170 2532 defaultLayout 11 41 ∧
      dotLeft 1170 2532 defaultLayout 11 41 + dotSize 1170 2532 defaultLayout ≤
        1170 - paddingX 1170 2532 defaultLayout ∧
      safeAreaTop 1170 2532 defaultLayout ≤ dotTop 1170 2532 defaultLayout 11 41 ∧
      dotTop 1170 2532 defaultLayout 11 41 + dotSize 1170 2532 defaultLayout ≤
        2532 - safeAreaBottom 2532 defaultLayout) := by
  have hv : totalContentHeight 1170 2532 defaultLayout ≤ safeHeight 1170 2532 defaultLayout := by
    norm_num [totalContentHeight, gridHeight, statsMargin, statsFontSize, rowGap,
      monthBlockHeight, monthLabelSize, dotGap, dotSize, maxDotSizeH, maxDotSizeV,
      cellWidth, availableWidth, paddingX, adjustedSidePadding, safeHeight,
      safeAreaBottom, safeAreaTop, aspectR, defaultLayout]
  have hhor : dotGridWidth 1170 2532 defaultLayout ≤ cellWidth 1170 2532 defaultLayout := by
    norm_num [dotGridWidth, dotGap, dotSize, maxDotSizeH, maxDotSizeV, cellWidth,
      availableWidth, paddingX, adjustedSidePadding, safeHeight, safeAreaBottom,
      safeAreaTop, aspectR, defaultLayout]
  exact ⟨⟨by norm_num, by norm_num, hv, hhor⟩,
    spec_C6 1170 2532 (by norm_num) (by norm_num) hv hhor 11 41 (by norm_num) (by norm_num)⟩

theorem monthsDots_length (y : Int) (mf : Bool) (c : Int) :
    (monthsDots y mf c).length = totalDaysNat y := by
  have h := congrArg List.length (monthsDots_spec y mf c).1
  rwa [List.length_map, List.length_map, List.length_range] at h

theorem monthsDots_states (y : Int) (mf : Bool) (c : Int) :
    (monthsDots y mf c).map (fun d => some d.state) =
      (List.range (totalDaysNat y)).map (fun (t : Nat) => some (dayState ((t : Int) + 1) c)) := by
  obtain ⟨hg, hs⟩ := monthsDots_spec y mf c
  have h1 : (monthsDots y mf c).map (fun d => some d.state) =
      (monthsDots y mf c).map (fun d => some (dayState d.global c)) := by
    apply List.map_congr_left
    intro d hd
    rw [hs d hd]
  have h2 : (monthsDots y mf c).map (fun d => some (dayState d.global c)) =
      ((monthsDots y mf c).map (fun d => d.global)).map (fun g => some (dayState g c)) := by
    rw [List.map_map]
    rfl
  rw [h1, h2, hg, List.map_map]
  rfl

set_option maxRecDepth 8000 in
/-- C2 refutation (code bug): two invocations of the year view with
IDENTICAL explicit inputs — canvas 1170 x 2532, default layout, stats
visible, no overlays, `currentDate = 2024-07-15` — produce different
Scenes when the system clock differs (2024-07-15 vs 2024-07-16), because
`getCurrentDayOfYear` reads `new Date()` and drops the timezone argument:
"now" is NOT always an explicit input. -/
theorem spec_C2 :
    yearViewMonthsScene 1170 2532 defaultLayout true [] [] false
        ⟨2024, 7, 15, 0⟩ ⟨2024, 7, 15, 0⟩ ≠
      yearViewMonthsScene 1170 2532 defaultLayout true [] [] false
        ⟨2024, 7, 15, 0⟩ ⟨2024, 7, 16, 0⟩ := by
  have hleap : isLeapYear 2024 = true := by decide
  have hc1 : getCurrentDayOfYear ⟨2024, 7, 15, 0⟩ = 197 := by
    rw [getCurrentDayOfYear_closed 2024 7 15 0 (by norm_num) (by norm_num)]
    simp [daysBeforeMonth, hleap]
  have hc2 : getCurrentDayOfYear ⟨2024, 7, 16, 0⟩ = 198 := by
    rw [getCurrentDayOfYear_closed 2024 7 16 0 (by norm_num) (by norm_num)]
    simp [daysBeforeMonth, hleap]
  intro hEq
  have hproj := congrArg (List.map primState) hEq
  simp only [yearViewMonthsScene] at hproj
  rw [hc1, hc2] at hproj
  unfold monthsGridPrims at hproj
  simp only [List.map_append, List.map_map] at hproj
  have e1 : (primState ∘ dotPrim 1170 2532 defaultLayout) =
      (fun (d : YearDot) => some d.state) := rfl
  rw [e1] at hproj
  rw [monthsDots_states, monthsDots_states] at hproj
  have h196 := congrArg (fun l => l.get? 196) hproj
  dsimp only at h196
  simp only [List.append_assoc] at h196
  rw [List.get?_append (by simp [List.length_map, List.length_range]; decide),
    List.get?_append (by simp [List.length_map, List.length_range]; decide)] at h196
  rw [List.get?_map, List.get?_map, List.get?_range (by decide)] at h196
  simp [dayState] at h196
